import Mathlib

/-!
Verification development for the observability demo backend
(src/backend/app.py).  The per-request observability middleware, the
metric instruments it updates, and the mock handlers it wraps are
shallowly embedded as pure functions over an explicit metrics state.
Wall-clock durations and timestamps are rational-number parameters;
the handler outcome and the transport-level dispatch outcome are
explicit sum types.
-/

namespace Backend

/-- JSON scalar values appearing in the mock handler payloads. -/
inductive JVal where
  | null : JVal
  | str : String → JVal
  | num : ℚ → JVal
deriving DecidableEq, Repr

/-- A JSON object, as an association list of fields in order. -/
abbrev JObj := List (String × JVal)

/-- First-match association-list lookup (models Python dict access,
where keys are unique). -/
def lookupStr {β : Type} : List (String × β) → String → Option β
  | [], _ => none
  | (k, v) :: rest, key => if k = key then some v else lookupStr rest key

/-- Python dict.get with default None: a missing key yields JSON null. -/
def dict_get (d : JObj) (k : String) : JVal :=
  match lookupStr d k with
  | some v => v
  | none => JVal.null

/-- An HTTP response as the middleware sees it: status code, JSON body,
and response headers. -/
structure Resp where
  status_code : Nat
  body : JObj
  headers : List (String × String)
deriving DecidableEq, Repr

/-- Outcome of running a route handler body: it returns a response,
raises an HTTPException (a deliberate HTTP error), or raises some other
exception (an unhandled fault, recorded as type name and message). -/
inductive HandlerResult where
  | ok : Resp → HandlerResult
  | http_exception : Nat → String → HandlerResult
  | fault : String → String → HandlerResult
deriving DecidableEq, Repr

/-- What call_next delivers to the middleware: a response, an exception
escaping the application, or a transport cancellation (a base-level
cancellation that is not an ordinary exception and so is not caught by
an except-Exception clause). -/
inductive DispatchOutcome where
  | response : Resp → DispatchOutcome
  | exc : String → String → DispatchOutcome
  | cancelled : DispatchOutcome
deriving DecidableEq, Repr

/-- Modelled from the spec: the framework exception layer sitting below
the custom middleware (not under src/) converts a raised HTTPException
into a normal HTTP error response carrying its status code and a JSON
detail body, while any other exception escapes call_next unchanged
(spec section 7: client-addressable errors are surfaced as a normal
HTTP error response with a status code of 400 or more; unhandled faults
escape the handler). -/
def call_next (h : HandlerResult) : DispatchOutcome :=
  match h with
  | .ok r => .response r
  | .http_exception s d => .response ⟨s, [("detail", JVal.str d)], []⟩
  | .fault t m => .exc t m

/-- Value of a lowercase hex digit. -/
def hexDigitVal (c : Char) : Option Nat :=
  if '0' ≤ c ∧ c ≤ '9' then some (c.toNat - '0'.toNat)
  else if 'a' ≤ c ∧ c ≤ 'f' then some (c.toNat - 'a'.toNat + 10)
  else none

/-- Parse a list of lowercase hex digits as a natural number. -/
def hexNat (cs : List Char) : Option Nat :=
  cs.foldl
    (fun acc c =>
      match acc, hexDigitVal c with
      | some n, some d => some (n * 16 + d)
      | _, _ => none)
    (some 0)

/-- Split a character list on the dash separator (the str.split of the
traceparent fields). -/
def splitDash : List Char → List (List Char)
  | [] => [[]]
  | c :: rest =>
    if c = '-' then [] :: splitDash rest
    else
      match splitDash rest with
      | [] => [[c]]
      | g :: gs => (c :: g) :: gs

/-- Modelled from the spec: the W3C trace-context propagator behind the
extract call (third-party SDK code, not under src/).  A traceparent
header of the form version-traceid-spanid-flags with a 32-hex-digit
nonzero trace id and a 16-hex-digit nonzero span id yields the inbound
context; a missing or malformed header yields none (spec section 6:
standard W3C-style traceparent propagation; section 4.3: fails open on
missing or invalid headers). -/
def extract (headers : List (String × String)) : Option (Nat × Nat) :=
  match lookupStr headers "traceparent" with
  | none => none
  | some v =>
    match splitDash v.data with
    | [ver, tid, sid, flags] =>
      if ver.length = 2 ∧ tid.length = 32 ∧ sid.length = 16 ∧ flags.length = 2 then
        match hexNat tid, hexNat sid with
        | some t, some s => if t ≠ 0 ∧ s ≠ 0 then some (t, s) else none
        | _, _ => none
      else none
    | _ => none

/-- Span status as set by set_status. -/
inductive SpanStatus where
  | unset : SpanStatus
  | ok : SpanStatus
  | error : String → SpanStatus
deriving DecidableEq, Repr

/-- Span attribute values (string, int, float). -/
inductive AttrVal where
  | s : String → AttrVal
  | i : Int → AttrVal
  | q : ℚ → AttrVal
deriving DecidableEq, Repr

/-- The per-request span record built by the middleware. -/
structure SpanRecord where
  name : String
  trace_id : Nat
  attributes : List (String × AttrVal)
  status : SpanStatus
  recorded_exception : Option String
deriving DecidableEq, Repr

/-- The inbound request as the middleware reads it. -/
structure RequestInfo where
  method : String
  scheme : String
  host : String
  path : String
  route_template : String
  headers : List (String × String)
deriving DecidableEq, Repr

/-- Process-wide metric state: the four Prometheus instruments declared
at module scope in app.py and the two OpenTelemetry instruments created
on the meter.  Counters are total functions from label values to counts;
histograms keep their list of observations per label pair. -/
structure MetricsState where
  REQUEST_COUNT : String → String → Nat → Nat
  REQUEST_DURATION : String → String → List ℚ
  ACTIVE_REQUESTS : Int
  ERROR_COUNT : String → String → String → Nat
  otel_request_counter : String → String → String → Nat
  otel_request_duration : String → String → List ℚ

/-- Increment a counter keyed by (method, endpoint, status code). -/
def bumpNat (f : String → String → Nat → Nat) (a b : String) (c : Nat) :
    String → String → Nat → Nat :=
  fun x y z => if x = a ∧ y = b ∧ z = c then f x y z + 1 else f x y z

/-- Increment a counter keyed by three string labels. -/
def bumpStr (f : String → String → String → Nat) (a b c : String) :
    String → String → String → Nat :=
  fun x y z => if x = a ∧ y = b ∧ z = c then f x y z + 1 else f x y z

/-- Append one observation to a histogram keyed by two string labels. -/
def observe (f : String → String → List ℚ) (a b : String) (v : ℚ) :
    String → String → List ℚ :=
  fun x y => if x = a ∧ y = b then f x y ++ [v] else f x y

/-- Gauge operations on ACTIVE_REQUESTS, in emission order. -/
inductive GaugeEvent where
  | inc : GaugeEvent
  | dec : GaugeEvent
deriving DecidableEq, Repr

/-- Result of one middleware invocation: the updated metric state, the
closed span, the gauge value observed while the handler ran, the
sequence of gauge operations performed, and what is handed back to the
transport (the response passed through, the exception re-raised, or the
propagated cancellation). -/
structure MiddlewareResult where
  metrics : MetricsState
  span : SpanRecord
  active_during : Int
  gauge_events : List GaugeEvent
  outcome : DispatchOutcome

/-- Header read with a default, as request.headers.get. -/
def headerGet (hs : List (String × String)) (k dv : String) : String :=
  match lookupStr hs k with
  | some v => v
  | none => dv

/-- The observability middleware of app.py, embedded as a pure function.
The dispatch outcome (what call_next produces, including the simulated
handler latency folded into the measured duration) and the fresh trace
id the SDK would generate for a root span are parameters.  Control flow
mirrors the source: extract context, open the span (inbound trace id if
extraction succeeded, fresh id otherwise), increment ACTIVE_REQUESTS,
set the static attributes; on a response record the two Prometheus and
the two OpenTelemetry request metrics (the OpenTelemetry histogram in
milliseconds) and set span status from the status code; on an exception
increment ERROR_COUNT with the exception type name, set span status to
the message, record the exception, and re-raise; a cancellation matches
neither branch; the finally block decrements ACTIVE_REQUESTS on every
path.  Metric endpoint labels use the raw resolved request path, as the
source does. -/
def observability_middleware (st : MetricsState) (request : RequestInfo)
    (fresh_trace_id : Nat) (dispatch : DispatchOutcome) (duration : ℚ) :
    MiddlewareResult :=
  let ctx := extract request.headers
  let tid := match ctx with
    | some (t, _) => t
    | none => fresh_trace_id
  let baseSpan : SpanRecord :=
    { name := request.method ++ " " ++ request.path
      trace_id := tid
      attributes :=
        [("http.method", AttrVal.s request.method),
         ("http.url", AttrVal.s (request.scheme ++ "://" ++ request.host ++ request.path)),
         ("http.scheme", AttrVal.s request.scheme),
         ("http.host", AttrVal.s request.host),
         ("http.target", AttrVal.s request.path),
         ("user_agent.original", AttrVal.s (headerGet request.headers "user-agent" ""))]
      status := SpanStatus.unset
      recorded_exception := none }
  let st1 : MetricsState := { st with ACTIVE_REQUESTS := st.ACTIVE_REQUESTS + 1 }
  match dispatch with
  | .response r =>
      let span2 : SpanRecord :=
        { baseSpan with
          attributes := baseSpan.attributes ++
            [("http.status_code", AttrVal.i (r.status_code : Int)),
             ("http.response.duration_ms", AttrVal.q (duration * 1000))]
          status :=
            if r.status_code ≥ 400 then
              SpanStatus.error ("HTTP " ++ toString r.status_code)
            else SpanStatus.ok }
      let st2 : MetricsState :=
        { st1 with
          REQUEST_COUNT := bumpNat st1.REQUEST_COUNT request.method request.path r.status_code
          REQUEST_DURATION := observe st1.REQUEST_DURATION request.method request.path duration
          otel_request_counter :=
            bumpStr st1.otel_request_counter request.method request.path (toString r.status_code)
          otel_request_duration :=
            observe st1.otel_request_duration request.method request.path (duration * 1000) }
      { metrics := { st2 with ACTIVE_REQUESTS := st2.ACTIVE_REQUESTS - 1 }
        span := span2
        active_during := st1.ACTIVE_REQUESTS
        gauge_events := [GaugeEvent.inc, GaugeEvent.dec]
        outcome := .response r }
  | .exc t m =>
      let span2 : SpanRecord :=
        { baseSpan with status := SpanStatus.error m, recorded_exception := some t }
      let st2 : MetricsState :=
        { st1 with ERROR_COUNT := bumpStr st1.ERROR_COUNT request.method request.path t }
      { metrics := { st2 with ACTIVE_REQUESTS := st2.ACTIVE_REQUESTS - 1 }
        span := span2
        active_during := st1.ACTIVE_REQUESTS
        gauge_events := [GaugeEvent.inc, GaugeEvent.dec]
        outcome := .exc t m }
  | .cancelled =>
      { metrics := { st1 with ACTIVE_REQUESTS := st1.ACTIVE_REQUESTS - 1 }
        span := baseSpan
        active_during := st1.ACTIVE_REQUESTS
        gauge_events := [GaugeEvent.inc, GaugeEvent.dec]
        outcome := .cancelled }

/-- Run one request end to end: the handler result goes through the
framework conversion (call_next) and then through the middleware. -/
def handle_request (st : MetricsState) (request : RequestInfo)
    (fresh_trace_id : Nat) (h : HandlerResult) (duration : ℚ) :
    MiddlewareResult :=
  observability_middleware st request fresh_trace_id (call_next h) duration

/-- GET /api/users/(user_id) handler: raises HTTPException 404 for ids
above 10, otherwise returns the canned user payload. -/
def get_user (user_id : Int) : HandlerResult :=
  if user_id > 10 then
    .http_exception 404 "User not found"
  else
    .ok ⟨200,
      [("id", JVal.num (user_id : ℚ)),
       ("name", JVal.str ("User " ++ toString user_id)),
       ("email", JVal.str ("user" ++ toString user_id ++ "@example.com"))],
      []⟩

/-- POST /api/users handler: id is the constant 100, name and email are
read from the input body with dict get (null when absent), created_at
is the wall-clock timestamp at creation. -/
def create_user (user_data : JObj) (now : ℚ) : HandlerResult :=
  .ok ⟨200,
    [("id", JVal.num 100),
     ("name", dict_get user_data "name"),
     ("email", dict_get user_data "email"),
     ("created_at", JVal.num now)],
    []⟩

/-- Read a field of the JSON body of a handler response. -/
def bodyField (h : HandlerResult) (k : String) : Option JVal :=
  match h with
  | .ok r => lookupStr r.body k
  | _ => none

/-- All metric instruments at zero, as at process start. -/
def initMetrics : MetricsState :=
  { REQUEST_COUNT := fun _ _ _ => 0
    REQUEST_DURATION := fun _ _ => []
    ACTIVE_REQUESTS := 0
    ERROR_COUNT := fun _ _ _ => 0
    otel_request_counter := fun _ _ _ => 0
    otel_request_duration := fun _ _ => [] }

/-- Concrete request: GET /api/users/17, no trace headers. -/
def reqUsers17 : RequestInfo :=
  { method := "GET", scheme := "http", host := "backend"
    path := "/api/users/17", route_template := "/api/users/\x7buser_id\x7d"
    headers := [] }

/-- Concrete request carrying the W3C example traceparent header. -/
def reqWithTrace : RequestInfo :=
  { method := "GET", scheme := "http", host := "backend"
    path := "/", route_template := "/"
    headers := [("traceparent",
      "00-0af7651916cd43dd8448eb211c80319c-b7ad6b7169203331-01")] }

/-- C1: for every request, on every completion path (handler returns a
response, handler raises, request cancelled mid-dispatch), the
middleware performs exactly one gauge decrement, at request exit, so
after the request completes ACTIVE_REQUESTS equals its pre-request
value (and was one higher while the handler ran). -/
theorem active_requests_restored (st : MetricsState) (request : RequestInfo)
    (fid : Nat) (d : DispatchOutcome) (dur : ℚ) :
    (observability_middleware st request fid d dur).metrics.ACTIVE_REQUESTS
        = st.ACTIVE_REQUESTS ∧
    (observability_middleware st request fid d dur).active_during
        = st.ACTIVE_REQUESTS + 1 ∧
    (observability_middleware st request fid d dur).gauge_events.count GaugeEvent.dec = 1 ∧
    (observability_middleware st request fid d dur).gauge_events
        = [GaugeEvent.inc, GaugeEvent.dec] := by
  cases d <;>
    exact ⟨by simp [observability_middleware], rfl, rfl, rfl⟩

/-- C2: for every request whose handler raises an unhandled exception,
the middleware increments ERROR_COUNT exactly once, at the label triple
(method, raw path, exception type name), leaves every other label
combination unchanged, and re-raises the same exception unchanged. -/
theorem error_count_on_unhandled_fault (st : MetricsState)
    (request : RequestInfo) (fid : Nat) (t m : String) (dur : ℚ) :
    (observability_middleware st request fid (.exc t m) dur).metrics.ERROR_COUNT
        request.method request.path t
      = st.ERROR_COUNT request.method request.path t + 1 ∧
    (∀ m' e' t', ¬ (m' = request.method ∧ e' = request.path ∧ t' = t) →
      (observability_middleware st request fid (.exc t m) dur).metrics.ERROR_COUNT m' e' t'
        = st.ERROR_COUNT m' e' t') ∧
    (observability_middleware st request fid (.exc t m) dur).outcome
        = DispatchOutcome.exc t m := by
  refine ⟨by simp [observability_middleware, bumpStr], ?_, rfl⟩
  intro m' e' t' hne
  simp [observability_middleware, bumpStr, hne]

theorem error_count_on_unhandled_fault_witness :
    (observability_middleware initMetrics reqUsers17 1
        (.exc "ValueError" "boom") 1).metrics.ERROR_COUNT
        "GET" "/api/users/17" "ValueError" = 1 ∧
    (observability_middleware initMetrics reqUsers17 1
        (.exc "ValueError" "boom") 1).metrics.ERROR_COUNT
        "GET" "/api/users/17" "TypeError" = 0 ∧
    (observability_middleware initMetrics reqUsers17 1
        (.exc "ValueError" "boom") 1).outcome
        = DispatchOutcome.exc "ValueError" "boom" := by
  obtain ⟨h1, h2, h3⟩ :=
    error_count_on_unhandled_fault initMetrics reqUsers17 1 "ValueError" "boom" 1
  refine ⟨?_, ?_, h3⟩
  · simpa [initMetrics, reqUsers17] using h1
  · simpa [initMetrics] using
      h2 "GET" "/api/users/17" "TypeError" (by simp)

/-- C3 (failing input): processing GET /api/users/17 — matched route
template /api/users/(user_id), handler get_user 17 answering 404 — the
middleware labels REQUEST_COUNT with the raw resolved path
"/api/users/17", and the bucket at the route template stays empty: the
endpoint label is the interpolated path, not the template. -/
theorem endpoint_label_is_raw_path :
    (handle_request initMetrics reqUsers17 1 (get_user 17) 1).metrics.REQUEST_COUNT
        "GET" "/api/users/17" 404 = 1 ∧
    (handle_request initMetrics reqUsers17 1 (get_user 17) 1).metrics.REQUEST_COUNT
        "GET" reqUsers17.route_template 404 = 0 ∧
    reqUsers17.route_template = "/api/users/\x7buser_id\x7d" := by
  refine ⟨?_, ?_, rfl⟩ <;> decide

/-- C4 (counterexample): for a completed request with a two-second
duration the Prometheus histogram records 2 (seconds) while the
OpenTelemetry histogram records 2000 (milliseconds) under the same
labels — the two instrument sets do not record identical numeric
values per request. -/
theorem otel_prometheus_not_bit_for_bit :
    (observability_middleware initMetrics reqUsers17 1
        (.response ⟨200, [], []⟩) 2).metrics.REQUEST_DURATION
        "GET" "/api/users/17" = [2] ∧
    (observability_middleware initMetrics reqUsers17 1
        (.response ⟨200, [], []⟩) 2).metrics.otel_request_duration
        "GET" "/api/users/17" = [2000] ∧
    (observability_middleware initMetrics reqUsers17 1
        (.response ⟨200, [], []⟩) 2).metrics.REQUEST_DURATION "GET" "/api/users/17"
      ≠ (observability_middleware initMetrics reqUsers17 1
        (.response ⟨200, [], []⟩) 2).metrics.otel_request_duration
        "GET" "/api/users/17" := by
  have hmul : (2 : ℚ) * 1000 = 2000 := by norm_num
  have h1 : (observability_middleware initMetrics reqUsers17 1
      (.response ⟨200, [], []⟩) 2).metrics.REQUEST_DURATION
      "GET" "/api/users/17" = [2] := by
    simp [observability_middleware, observe, initMetrics, reqUsers17]
  have h2 : (observability_middleware initMetrics reqUsers17 1
      (.response ⟨200, [], []⟩) 2).metrics.otel_request_duration
      "GET" "/api/users/17" = [2000] := by
    simp [observability_middleware, observe, initMetrics, reqUsers17, hmul]
  refine ⟨h1, h2, ?_⟩
  rw [h1, h2]
  simp

/-- C4 (amended): for every completed request the Prometheus and
OpenTelemetry request counters are incremented together, by one, at the
same (method, raw path, status code) label values (the status code
stringified on the OpenTelemetry side), and the two duration histograms
are recorded together at the same (method, raw path) labels — but the
OpenTelemetry histogram records the duration in milliseconds, 1000
times the seconds value the Prometheus histogram observes; the
ACTIVE_REQUESTS gauge and ERROR_COUNT counter have no OpenTelemetry
parallel. -/
theorem otel_prometheus_parallel (st : MetricsState) (request : RequestInfo)
    (fid : Nat) (r : Resp) (dur : ℚ) :
    (observability_middleware st request fid (.response r) dur).metrics.REQUEST_COUNT
        request.method request.path r.status_code
      = st.REQUEST_COUNT request.method request.path r.status_code + 1 ∧
    (observability_middleware st request fid (.response r) dur).metrics.otel_request_counter
        request.method request.path (toString r.status_code)
      = st.otel_request_counter request.method request.path (toString r.status_code) + 1 ∧
    (observability_middleware st request fid (.response r) dur).metrics.REQUEST_DURATION
        request.method request.path
      = st.REQUEST_DURATION request.method request.path ++ [dur] ∧
    (observability_middleware st request fid (.response r) dur).metrics.otel_request_duration
        request.method request.path
      = st.otel_request_duration request.method request.path ++ [dur * 1000] := by
  refine ⟨?_, ?_, ?_, ?_⟩ <;>
    simp [observability_middleware, bumpNat, bumpStr, observe]

/-- C5: a deliberate HTTP error response — here the 404 that
get_user raises as an HTTPException for ids above 10 and the framework
surfaces as a 404 response — increments REQUEST_COUNT at its status
code but leaves the ERROR_COUNT instrument entirely unchanged; only an
exception escaping the handler uncaught (dispatch outcome exc)
increments ERROR_COUNT. -/
theorem deliberate_http_error_not_in_error_count (st : MetricsState)
    (request : RequestInfo) (fid : Nat) (dur : ℚ) (user_id : Int)
    (h : user_id > 10) :
    call_next (get_user user_id)
      = DispatchOutcome.response ⟨404, [("detail", JVal.str "User not found")], []⟩ ∧
    (handle_request st request fid (get_user user_id) dur).metrics.REQUEST_COUNT
        request.method request.path 404
      = st.REQUEST_COUNT request.method request.path 404 + 1 ∧
    (handle_request st request fid (get_user user_id) dur).metrics.ERROR_COUNT
      = st.ERROR_COUNT := by
  have hcn : call_next (get_user user_id)
      = DispatchOutcome.response ⟨404, [("detail", JVal.str "User not found")], []⟩ := by
    simp [get_user, call_next, h]
  refine ⟨hcn, ?_, ?_⟩ <;>
    simp [handle_request, hcn, observability_middleware, bumpNat]

theorem deliberate_http_error_not_in_error_count_witness :
    (11 : Int) > 10 ∧
    (handle_request initMetrics reqUsers17 1 (get_user 11) 1).metrics.REQUEST_COUNT
        "GET" "/api/users/17" 404 = 1 ∧
    (handle_request initMetrics reqUsers17 1 (get_user 11) 1).metrics.ERROR_COUNT
        "GET" "/api/users/17" "HTTPException" = 0 := by
  obtain ⟨h1, h2, h3⟩ :=
    deliberate_http_error_not_in_error_count initMetrics reqUsers17 1 1 11
      (by decide)
  refine ⟨by decide, ?_, ?_⟩
  · simpa [initMetrics, reqUsers17] using h2
  · have h4 := congrFun (congrFun (congrFun h3 "GET") "/api/users/17") "HTTPException"
    simpa [initMetrics] using h4

/-- C6: for every request whose handler returns a response, the span
status is OK when the status code is below 400 and ERROR with the
status code in the status message when it is 400 or above. -/
theorem span_status_follows_status_code (st : MetricsState)
    (request : RequestInfo) (fid : Nat) (r : Resp) (dur : ℚ) :
    (r.status_code < 400 →
      (observability_middleware st request fid (.response r) dur).span.status
        = SpanStatus.ok) ∧
    (r.status_code ≥ 400 →
      (observability_middleware st request fid (.response r) dur).span.status
        = SpanStatus.error ("HTTP " ++ toString r.status_code)) := by
  constructor <;> intro h
  · simp [observability_middleware, Nat.not_le.mpr h]
  · simp [observability_middleware, h]

theorem span_status_follows_status_code_witness :
    ((200 : Nat) < 400 ∧
      (observability_middleware initMetrics reqUsers17 1
          (.response ⟨200, [], []⟩) 1).span.status = SpanStatus.ok) ∧
    ((404 : Nat) ≥ 400 ∧
      (observability_middleware initMetrics reqUsers17 1
          (.response ⟨404, [], []⟩) 1).span.status
        = SpanStatus.error "HTTP 404") := by
  refine ⟨⟨by decide, ?_⟩, ⟨by decide, ?_⟩⟩
  · exact (span_status_follows_status_code initMetrics reqUsers17 1
      ⟨200, [], []⟩ 1).1 (by decide)
  · simpa using (span_status_follows_status_code initMetrics reqUsers17 1
      ⟨404, [], []⟩ 1).2 (by decide)

/-- C7: when the inbound headers carry a valid traceparent, the opened
span continues the inbound trace id; when extraction yields nothing
(missing or invalid headers) the request is still processed — the
dispatch outcome passes through unchanged — and the span gets the
freshly generated trace id, which the SDK draws nonzero. -/
theorem trace_context_continuation (st : MetricsState) (request : RequestInfo)
    (fid : Nat) (d : DispatchOutcome) (dur : ℚ) (hf : fid ≠ 0) :
    (∀ tid sid, extract request.headers = some (tid, sid) →
      (observability_middleware st request fid d dur).span.trace_id = tid) ∧
    (extract request.headers = none →
      (observability_middleware st request fid d dur).span.trace_id = fid ∧
      (observability_middleware st request fid d dur).span.trace_id ≠ 0 ∧
      (observability_middleware st request fid d dur).outcome = d) := by
  constructor
  · intro tid sid hx
    cases d <;> simp [observability_middleware, hx]
  · intro hx
    cases d <;> simp [observability_middleware, hx, hf]

theorem trace_context_continuation_witness :
    (5 : Nat) ≠ 0 ∧
    extract reqWithTrace.headers
      = some (0x0af7651916cd43dd8448eb211c80319c, 0xb7ad6b7169203331) ∧
    (observability_middleware initMetrics reqWithTrace 5 .cancelled 1).span.trace_id
      = 0x0af7651916cd43dd8448eb211c80319c ∧
    extract reqUsers17.headers = none ∧
    (observability_middleware initMetrics reqUsers17 5 .cancelled 1).span.trace_id = 5 ∧
    (observability_middleware initMetrics reqUsers17 5 .cancelled 1).span.trace_id ≠ 0 ∧
    (observability_middleware initMetrics reqUsers17 5 .cancelled 1).outcome
      = DispatchOutcome.cancelled := by
  have hx : extract reqWithTrace.headers
      = some (0x0af7651916cd43dd8448eb211c80319c, 0xb7ad6b7169203331) := by decide
  have hn : extract reqUsers17.headers = none := by decide
  have h1 := (trace_context_continuation initMetrics reqWithTrace 5
      DispatchOutcome.cancelled 1 (by decide)).1 _ _ hx
  have h2 := (trace_context_continuation initMetrics reqUsers17 5
      DispatchOutcome.cancelled 1 (by decide)).2 hn
  exact ⟨by decide, hx, h1, hn, h2.1, h2.2.1, h2.2.2⟩

/-- C8: GET /api/users/(user_id) with user_id above 10 yields a 404
response (the raised HTTPException surfaced by the framework), and
GET /api/users/5 returns 200 with the canned user 5 payload. -/
theorem get_user_responses (user_id : Int) (h : user_id > 10) :
    call_next (get_user user_id)
      = DispatchOutcome.response ⟨404, [("detail", JVal.str "User not found")], []⟩ ∧
    get_user 5 = HandlerResult.ok ⟨200,
      [("id", JVal.num 5), ("name", JVal.str "User 5"),
       ("email", JVal.str "user5@example.com")], []⟩ := by
  constructor
  · simp [get_user, call_next, h]
  · decide

theorem get_user_responses_witness :
    (11 : Int) > 10 ∧
    call_next (get_user 11)
      = DispatchOutcome.response ⟨404, [("detail", JVal.str "User not found")], []⟩ := by
  exact ⟨by decide, (get_user_responses 11 (by decide)).1⟩

/-- C9: the middleware hands the handler response back to the transport
unmodified — same status code, same body, same headers, value for
value — and in particular never adds an X-Trace-Id response header: a
response carrying none comes back carrying none. -/
theorem middleware_returns_response_unmodified (st : MetricsState)
    (request : RequestInfo) (fid : Nat) (resp : Resp) (dur : ℚ) :
    (observability_middleware st request fid (.response resp) dur).outcome
      = DispatchOutcome.response resp ∧
    (lookupStr resp.headers "X-Trace-Id" = none →
      ∀ r', (observability_middleware st request fid (.response resp) dur).outcome
          = DispatchOutcome.response r' →
        lookupStr r'.headers "X-Trace-Id" = none) := by
  refine ⟨rfl, ?_⟩
  intro hnone r' hr
  have h0 : DispatchOutcome.response resp = DispatchOutcome.response r' := by
    rw [← hr]
    rfl
  injection h0 with h
  rw [← h]
  exact hnone

theorem middleware_returns_response_unmodified_witness :
    (observability_middleware initMetrics reqUsers17 1
        (.response ⟨200, [], []⟩) 1).outcome
      = DispatchOutcome.response ⟨200, [], []⟩ ∧
    lookupStr (Resp.mk 200 [] []).headers "X-Trace-Id" = none := by
  have h := middleware_returns_response_unmodified initMetrics reqUsers17 1
    ⟨200, [], []⟩ 1
  exact ⟨h.1, h.2 (by decide) ⟨200, [], []⟩ h.1⟩

/-- C10: for every input body, create_user returns a payload whose id
field is the constant 100 — successive creations never yield distinct
ids — whose name and email are read from the input with dict get and so
are JSON null when the keys are absent, plus a created_at timestamp. -/
theorem create_user_constant_id (d1 d2 data : JObj) (n1 n2 now : ℚ) :
    bodyField (create_user d1 n1) "id" = some (JVal.num 100) ∧
    bodyField (create_user d1 n1) "id" = bodyField (create_user d2 n2) "id" ∧
    bodyField (create_user data now) "name" = some (dict_get data "name") ∧
    bodyField (create_user data now) "email" = some (dict_get data "email") ∧
    (lookupStr data "name" = none →
      bodyField (create_user data now) "name" = some JVal.null) ∧
    (lookupStr data "email" = none →
      bodyField (create_user data now) "email" = some JVal.null) ∧
    bodyField (create_user data now) "created_at" = some (JVal.num now) := by
  refine ⟨rfl, rfl, rfl, rfl, ?_, ?_, rfl⟩
  · intro h
    show some (dict_get data "name") = some JVal.null
    simp [dict_get, h]
  · intro h
    show some (dict_get data "email") = some JVal.null
    simp [dict_get, h]

theorem create_user_constant_id_witness :
    bodyField (create_user [] 1) "id" = some (JVal.num 100) ∧
    bodyField (create_user [] 1) "id"
      = bodyField (create_user [("name", JVal.str "Test")] 2) "id" ∧
    lookupStr ([] : JObj) "name" = none ∧
    bodyField (create_user [] 1) "name" = some JVal.null ∧
    lookupStr ([] : JObj) "email" = none ∧
    bodyField (create_user [] 1) "email" = some JVal.null ∧
    bodyField (create_user [] 1) "created_at" = some (JVal.num 1) := by
  obtain ⟨h1, h2, _, _, h5, h6, h7⟩ :=
    create_user_constant_id [] [("name", JVal.str "Test")] [] 1 2 1
  exact ⟨h1, h2, rfl, h5 rfl, rfl, h6 rfl, h7⟩

end Backend
